import Mathlib

/-!
Verification development for the parking-account recommendation pipeline
(repository `parking-ai`).

Shallow embedding conventions:
* Python `float` values (interest rates, match rates) are modelled as `Rat`:
  the code only compares, sorts and divides them.
* Python `dict` product records are modelled by the structure `Product`;
  a record missing a key is modelled by the field holding the default that
  the corresponding `.get(key, default)` call in the source supplies.
* Python `dict[str, str]` (the exclusion-reason map) is modelled as an
  insertion-ordered association list, mirroring CPython dict semantics:
  assignment to a present key overwrites in place, assignment to an absent
  key appends.
* Raised exceptions are modelled with `Except PyErr`; a `try/except` block
  becomes a `match` on the `Except` value.
-/

/-- Python exception carrying its message (`str(e)` in the source). -/
structure PyErr where
  msg : String
deriving Repr, DecidableEq

deriving instance DecidableEq for Except

/-- Source `schemas/eligibility_conditions.py`, class `EligibilityConditions`.
Field defaults are the pydantic defaults of the source. -/
structure EligibilityConditions where
  min_interest_rate : Rat
  categories : List String := []
  special_conditions : List String := []
  budget : Int := 10000000
  deposit_period : Int := 12
deriving Repr, DecidableEq

/-- Product record (a raw `dict` in the source, produced by the catalog
collaborator). Fields are the keys the core reads:
`product_code`, `product_name`, `interest_rate` (base rate),
`prime_interest_rate` (promotional rate), `categories`,
`special_conditions` (tag to boolean flag map). Defaults are the values the
`.get` calls in `tools/condition_matcher.py` supply for missing keys. -/
structure Product where
  product_code : String := "unknown"
  product_name : String := ""
  interest_rate : Rat := 0
  prime_interest_rate : Rat := 0
  categories : List String := []
  special_conditions : List (String × Bool) := []
deriving Repr, DecidableEq

/-- The `filter_conditions` summary dict built by
`EligibilityFilterResult.create_result`. -/
structure FilterConditionsSummary where
  min_interest_rate : Rat
  categories : List String
  special_conditions : List String
deriving Repr, DecidableEq

/-- Source `schemas/eligibility_filter_result.py`, class
`EligibilityFilterResult`. -/
structure EligibilityFilterResult where
  matched_products : List Product
  excluded_products : List Product
  total_analyzed : Nat
  match_count : Nat
  match_rate : Rat
  exclusion_reasons : List (String × String)
  processing_timestamp : String
  filter_conditions : FilterConditionsSummary
deriving Repr, DecidableEq

/-- Source `EligibilityFilterResult.create_result`. The call to
`datetime.now().isoformat()` is an external effect; the timestamp is passed
in as the extra parameter `now`. -/
def EligibilityFilterResult.create_result (matched excluded : List Product)
    (exclusion_reasons : List (String × String))
    (conditions : EligibilityConditions) (now : String) :
    EligibilityFilterResult :=
  let total := matched.length + excluded.length
  let match_rate : Rat := if total > 0 then (matched.length : Rat) / (total : Rat) * 100 else 0
  { matched_products := matched
    excluded_products := excluded
    total_analyzed := total
    match_count := matched.length
    match_rate := match_rate
    exclusion_reasons := exclusion_reasons
    processing_timestamp := now
    filter_conditions :=
      { min_interest_rate := conditions.min_interest_rate
        categories := conditions.categories
        special_conditions := conditions.special_conditions } }

/-- CPython dict assignment `d[k] = v` on an insertion-ordered association
list: overwrite in place when the key is present, append when absent. -/
def dictSet (d : List (String × String)) (k v : String) : List (String × String) :=
  if d.any (fun kv => kv.1 == k) then
    d.map (fun kv => if kv.1 == k then (k, v) else kv)
  else d ++ [(k, v)]

/-- Python `k in d` for the reason dict. -/
def dictContains (d : List (String × String)) (k : String) : Bool :=
  d.any (fun kv => kv.1 == k)

/-- Python `d.get(k)` / `d[k]` read on the reason dict: value of the first
(and by the dict invariant only) pair with key `k`. -/
def pyLookup (d : List (String × String)) (k : String) : Option String :=
  (d.find? (fun kv => kv.1 == k)).map (fun kv => kv.2)

/-- Source `ConditionMatcherTool._check_interest_rate`:
`max(product.get("interest_rate", 0), product.get("prime_interest_rate", 0)) >= min_rate`. -/
def ConditionMatcherTool.check_interest_rate (product : Product) (min_rate : Rat) : Bool :=
  min_rate ≤ max product.interest_rate product.prime_interest_rate

/-- Source `ConditionMatcherTool._apply_category_filters`: sequential
narrowing, one list comprehension per required category tag. The leading
underscore of the Python name is dropped (Lean reserves it). -/
def ConditionMatcherTool.apply_category_filters
    (products : List Product) (categories : List String) : List Product :=
  categories.foldl
    (fun filtered category => filtered.filter (fun p => p.categories.contains category))
    products

/-- Source `ConditionMatcherTool._apply_special_condition_filters`:
sequential narrowing over the special-condition flag map,
`product.get("special_conditions", {}).get(condition, False)`. -/
def ConditionMatcherTool.apply_special_condition_filters
    (products : List Product) (special_conditions : List String) : List Product :=
  special_conditions.foldl
    (fun filtered condition =>
      filtered.filter (fun p => (p.special_conditions.lookup condition).getD false))
    products

/-- One step of the stable descending insertion sort: place `p` after every
element with a strictly greater promotional rate and before the first
element whose rate is less than or equal. -/
def insertPrimeDesc (p : Product) : List Product → List Product
  | [] => [p]
  | q :: qs =>
    if p.prime_interest_rate < q.prime_interest_rate then q :: insertPrimeDesc p qs
    else p :: q :: qs

/-- Embedding of Python `sorted(l, key=lambda x: x.get("prime_interest_rate", 0), reverse=True)`:
a stable sort, descending by promotional rate, ties keeping the original
relative order. Implemented as a stable insertion sort so that it reduces
structurally (each element is inserted before the later elements that carry
an equal rate, which is exactly the CPython stable-sort order). -/
def sortPrimeDesc : List Product → List Product
  | [] => []
  | p :: ps => insertPrimeDesc p (sortPrimeDesc ps)

/-- Exclusion reason recorded by the rate stage
(Korean for: below the minimum rate threshold). -/
def rateReasonMsg : String := "최소 금리 기준 미달"

/-- Exclusion reason recorded by the final pass
(Korean for: category or special-condition mismatch). -/
def mismatchReasonMsg : String := "카테고리 또는 우대조건 미충족"

/-- The first (rate) filtering loop of `ConditionMatcherTool.run`: one pass
over the catalog appending to `matched`, `excluded` and the reason dict. -/
def rateStage (min_rate : Rat) (products : List Product) :
    List Product × List Product × List (String × String) :=
  products.foldl
    (fun acc product =>
      if ConditionMatcherTool.check_interest_rate product min_rate then
        (acc.1 ++ [product], acc.2.1, acc.2.2)
      else
        (acc.1, acc.2.1 ++ [product], dictSet acc.2.2 product.product_code rateReasonMsg))
    ([], [], [])

/-- Stages 1 to 3 of `ConditionMatcherTool.run`: the rate-stage survivors,
narrowed by the category filters (skipped when no category tag is required)
and then by the special-condition filters (likewise skipped when empty),
exactly as the two guarded calls in the source. -/
def stage3Survivors (conditions : EligibilityConditions) (products : List Product) :
    List Product :=
  let matched1 := (rateStage conditions.min_interest_rate products).1
  let matched2 :=
    if conditions.categories.isEmpty then matched1
    else ConditionMatcherTool.apply_category_filters matched1 conditions.categories
  if conditions.special_conditions.isEmpty then matched2
  else ConditionMatcherTool.apply_special_condition_filters matched2 conditions.special_conditions

/-- Source `ConditionMatcherTool._apply_count_rebalancing`: sort the
survivors descending by promotional rate; below 15, backfill the shortfall
from the whole catalog (minus already-included product codes) in the same
order; above 30, truncate to the top 30; otherwise return the sorted list. -/
def ConditionMatcherTool.apply_count_rebalancing
    (matched_products all_products : List Product) : List Product :=
  if matched_products.isEmpty && all_products.isEmpty then []
  else
    let sorted_matched := sortPrimeDesc matched_products
    if sorted_matched.length < 15 then
      let needed_count := 15 - sorted_matched.length
      let matched_codes := sorted_matched.map (fun p => p.product_code)
      let remaining_products :=
        all_products.filter (fun p => !(matched_codes.contains p.product_code))
      let sorted_remaining := sortPrimeDesc remaining_products
      sorted_matched ++ sorted_remaining.take needed_count
    else if sorted_matched.length > 30 then
      sorted_matched.take 30
    else sorted_matched

/-- The final loop of `ConditionMatcherTool.run`: every catalog product whose
code is neither among the final matched codes nor already in the reason dict
is appended to `excluded` and recorded with the mismatch reason. The set
`matched_codes` is computed once before the loop; the reason dict grows
while the loop runs, so the fold threads both. -/
def finalExclusionPass (matched_codes : List String) (products : List Product)
    (excluded : List Product) (reasons : List (String × String)) :
    List Product × List (String × String) :=
  products.foldl
    (fun acc product =>
      if !(matched_codes.contains product.product_code)
          && !(dictContains acc.2 product.product_code) then
        (acc.1 ++ [product], dictSet acc.2 product.product_code mismatchReasonMsg)
      else acc)
    (excluded, reasons)

/-- Source `ConditionMatcherTool.run`. The body is the source verbatim with
the four stages factored into the named functions above (the rate loop into
`rateStage`, the two guarded narrowing calls into `stage3Survivors`, the
final loop into `finalExclusionPass`); `run` is pure, so factoring the `let`
chain into defs does not change it. -/
def ConditionMatcherTool.run (conditions : EligibilityConditions)
    (products : List Product) (now : String) : EligibilityFilterResult :=
  let s1 := rateStage conditions.min_interest_rate products
  let matched := ConditionMatcherTool.apply_count_rebalancing
    (stage3Survivors conditions products) products
  let matched_codes := matched.map (fun p => p.product_code)
  let fin := finalExclusionPass matched_codes products s1.2.1 s1.2.2
  EligibilityFilterResult.create_result matched fin.1 fin.2 conditions now

/-! ## Response schemas (`schemas/agent_responses.py`, `schemas/strategy_tool_schema.py`) -/

/-- Source `SimpleProduct` in `schemas/agent_responses.py`. -/
structure SimpleProduct where
  product_code : String
  product_name : String
deriving Repr, DecidableEq

/-- Source `FilterSummary` in `schemas/agent_responses.py`. -/
structure FilterSummary where
  total_analyzed : Nat
  match_count : Nat
  excluded_count : Nat
  match_rate : Rat
  execution_time : Option Rat := none
deriving Repr, DecidableEq

/-- Modelled from the spec: the module `schemas/question_tool_schema.py`
that defines `UserResponse` is not present under `src/`. Section 3 of the
spec describes a user question as an id, a category tag, a prompt string
and an impact description. -/
structure UserQuestion where
  id : String
  category : String
  prompt : String
  impact : String
deriving Repr, DecidableEq

/-- Modelled from the spec: `UserResponse` (from the missing module
`schemas/question_tool_schema.py`) is a question plus a boolean answer,
optional raw input text and a timestamp; `StrategyAgent._format_success_response`
additionally reads the fields `id` and `response_value` from it, so those
are kept as fields. -/
structure UserResponse where
  id : String
  question : UserQuestion
  response_value : Bool
  raw_input : Option String := none
  timestamp : String := ""
deriving Repr, DecidableEq

/-- Source `ProductInterestCalculation` in `schemas/strategy_tool_schema.py`. -/
structure ProductInterestCalculation where
  product_code : String
  product_name : String
  interest : Int
  calculation_detail : String
  applied_conditions : List String
deriving Repr, DecidableEq

/-- Source `ScenarioTypeEnum` in `schemas/strategy_tool_schema.py`. -/
inductive ScenarioTypeEnum where
  | single
  | distributed
  | high_yield
deriving Repr, DecidableEq

/-- Source `ProductAllocation` in `schemas/strategy_tool_schema.py`. -/
structure ProductAllocation where
  product_code : String
  product_name : String
  allocated_amount : Int
  interest_rate : Rat
  deposit_period_months : Int
  conditions_required : List String := []
  expected_interest_6m : Int
  expected_interest_1y : Int
  expected_interest_3y : Int
deriving Repr, DecidableEq

/-- Source `ScenarioDetails` in `schemas/strategy_tool_schema.py`. -/
structure ScenarioDetails where
  scenario_type : ScenarioTypeEnum
  scenario_name : String
  scenario_content : String
  products : List ProductAllocation
  total_allocated_amount : Int
  total_expected_interest_6m : Int
  total_expected_interest_1y : Int
  total_expected_interest_3y : Int
  scenario_summary : String
  advantages : List String
  disadvantages : List String
  recommended_for : String
  condition_achievement_rate : Rat
deriving Repr, DecidableEq

/-- Source `StrategyScenarioResult` in `schemas/strategy_tool_schema.py`. -/
structure StrategyScenarioResult where
  scenarios : List ScenarioDetails
  interest_calculations : List ProductInterestCalculation
  user_conditions : EligibilityConditions
  user_responses : List UserResponse
  generation_success : Bool
  error : Option String := none
deriving Repr, DecidableEq

/-- Source `EligibilitySuccessResponse`: `result_products`, `filter_summary`
and `user_conditions` are required (no pydantic default); the remaining
fields carry the source defaults. -/
structure EligibilitySuccessResponse where
  result_products : List SimpleProduct
  filter_summary : FilterSummary
  user_conditions : EligibilityConditions
  processing_step : String := "eligibility_completed"
  next_agent : String := "FilterQuestionAgent"
  success : Bool := true
  error : Option String := none
deriving Repr, DecidableEq

/-- Source `EligibilityErrorResponse`: only `error` is required; all other
fields carry the source pydantic defaults (the `result_products` element
type in the source is the raw product `dict`). -/
structure EligibilityErrorResponse where
  result_products : List Product := []
  filter_summary : FilterSummary :=
    { total_analyzed := 0, match_count := 0, excluded_count := 0, match_rate := 0 }
  user_conditions : Option EligibilityConditions := none
  processing_step : String := "eligibility_failed"
  next_agent : Option String := none
  success : Bool := false
  error : String
deriving Repr, DecidableEq

/-- Source `EligibilityAgent._format_error_response` /
`EligibilityErrorResponse(error=error_message)`. -/
def EligibilityErrorResponse.ofError (error_message : String) : EligibilityErrorResponse :=
  { error := error_message }

/-- Source `QuestionSuccessResponse`. -/
structure QuestionSuccessResponse where
  eligible_products : List SimpleProduct
  user_responses : List UserResponse
  response_summary : List (String × Bool)
  user_conditions : EligibilityConditions
  processing_step : String := "question_completed"
  next_agent : String := "StrategyAgent"
  success : Bool := true
  error : Option String := none
deriving Repr, DecidableEq

/-- Source `QuestionErrorResponse`: only `error` is required. -/
structure QuestionErrorResponse where
  eligible_products : List SimpleProduct := []
  user_responses : List UserResponse := []
  response_summary : List (String × Bool) := []
  user_conditions : Option EligibilityConditions := none
  processing_step : String := "question_failed"
  next_agent : Option String := none
  success : Bool := false
  error : String
deriving Repr, DecidableEq

/-- Source `QuestionAgent._format_error_response` /
`QuestionErrorResponse(error=error_message)`. -/
def QuestionErrorResponse.ofError (error_message : String) : QuestionErrorResponse :=
  { error := error_message }

/-- Source `StrategySuccessResponse`. -/
structure StrategySuccessResponse where
  scenarios : List ScenarioDetails
  user_conditions : EligibilityConditions
  user_responses : List UserResponse
  response_summary : List (String × Bool)
  interest_calculations : List ProductInterestCalculation
  processing_step : String := "strategy_completed"
  next_agent : String := "ComparatorAgent"
  success : Bool := true
  error : Option String := none
deriving Repr, DecidableEq

/-- Source `StrategyErrorResponse`: only `error` is required. -/
structure StrategyErrorResponse where
  scenarios : List ScenarioDetails := []
  user_conditions : Option EligibilityConditions := none
  user_responses : List UserResponse := []
  response_summary : List (String × Bool) := []
  interest_calculations : List ProductInterestCalculation := []
  processing_step : String := "strategy_failed"
  next_agent : Option String := none
  success : Bool := false
  error : String
deriving Repr, DecidableEq

/-- Source `StrategyAgent._format_error_response` /
`StrategyErrorResponse(error=error_message)`. -/
def StrategyErrorResponse.ofError (error_message : String) : StrategyErrorResponse :=
  { error := error_message }

/-! ## Agents and pipeline
(`agents/eligibility_agent.py`, `agents/question_agent.py`,
`agents/strategy_agent.py`, `pipeline/pipeline.py`)

A value travelling down the `RunnableSequence` is one of: the initial input
dict, or one of the six typed responses. -/

/-- A Python value passed between pipeline components: the initial
`{"conditions": ...}` input dict or one of the typed agent responses. -/
inductive PipeValue where
  | inputData (conditions : Option EligibilityConditions)
  | eligSuccess (r : EligibilitySuccessResponse)
  | eligError (r : EligibilityErrorResponse)
  | questionSuccess (r : QuestionSuccessResponse)
  | questionError (r : QuestionErrorResponse)
  | strategySuccess (r : StrategySuccessResponse)
  | strategyError (r : StrategyErrorResponse)
deriving Repr, DecidableEq

/-- Python attribute read `.success`: every response object carries the
field; reading it on the plain input dict raises `AttributeError`. -/
def PipeValue.successAttr : PipeValue → Except PyErr Bool
  | .inputData _ => .error { msg := "AttributeError: dict object has no attribute success" }
  | .eligSuccess r => .ok r.success
  | .eligError r => .ok r.success
  | .questionSuccess r => .ok r.success
  | .questionError r => .ok r.success
  | .strategySuccess r => .ok r.success
  | .strategyError r => .ok r.success

/-- Python truthiness of `.result_products` (`QuestionAgent.execute`
validation): only the two eligibility responses carry the field; on any
other value the attribute read raises. -/
def PipeValue.resultProductsTruthy : PipeValue → Except PyErr Bool
  | .eligSuccess r => .ok (!r.result_products.isEmpty)
  | .eligError r => .ok (!r.result_products.isEmpty)
  | _ => .error { msg := "AttributeError: object has no attribute result_products" }

/-- Python truthiness of `.eligible_products` (`StrategyAgent.execute`
validation): carried by the two question responses. -/
def PipeValue.eligibleProductsTruthy : PipeValue → Except PyErr Bool
  | .questionSuccess r => .ok (!r.eligible_products.isEmpty)
  | .questionError r => .ok (!r.eligible_products.isEmpty)
  | _ => .error { msg := "AttributeError: object has no attribute eligible_products" }

/-- Python truthiness of `.user_responses` (`StrategyAgent.execute`
validation): carried by the question and strategy responses. -/
def PipeValue.userResponsesTruthy : PipeValue → Except PyErr Bool
  | .questionSuccess r => .ok (!r.user_responses.isEmpty)
  | .questionError r => .ok (!r.user_responses.isEmpty)
  | .strategySuccess r => .ok (!r.user_responses.isEmpty)
  | .strategyError r => .ok (!r.user_responses.isEmpty)
  | _ => .error { msg := "AttributeError: object has no attribute user_responses" }

/-- Pydantic construction `EligibilitySuccessResponse(...)` with keyword
arguments: the three fields without defaults are required; a keyword that
matches no declared field is ignored (default pydantic config), and a
missing required field raises `ValidationError`. Each argument is `some`
when the corresponding keyword was supplied. -/
def EligibilitySuccessResponse.pydanticInit
    (result_products : Option (List SimpleProduct))
    (filter_summary : Option FilterSummary)
    (user_conditions : Option EligibilityConditions) :
    Except PyErr EligibilitySuccessResponse :=
  match result_products, filter_summary, user_conditions with
  | some rp, some fs, some uc =>
    .ok { result_products := rp, filter_summary := fs, user_conditions := uc }
  | _, _, _ =>
    .error { msg := "1 validation error for EligibilitySuccessResponse: result_products Field required" }

/-- Source `EligibilityAgent._format_success_response`. The source builds a
`FilterSummary` from the filter result (the `getattr(filter_result,
"execution_time", None)` read yields `None`: `EligibilityFilterResult` has
no such field) and then calls
`EligibilitySuccessResponse(eligible_products=..., filter_summary=..., user_conditions=...)`.
The keyword `eligible_products` matches no declared field of
`EligibilitySuccessResponse` (its field is named `result_products`), so the
required `result_products` keyword is absent: the construction raises a
pydantic `ValidationError`, modelled by passing `none` for it. -/
def EligibilityAgent.format_success_response (filter_result : EligibilityFilterResult)
    (conditions : EligibilityConditions) : Except PyErr EligibilitySuccessResponse :=
  let filter_summary : FilterSummary :=
    { total_analyzed := filter_result.total_analyzed
      match_count := filter_result.match_count
      excluded_count := filter_result.excluded_products.length
      match_rate := filter_result.match_rate
      execution_time := none }
  EligibilitySuccessResponse.pydanticInit none (some filter_summary) (some conditions)

/-- Source `EligibilityAgent._format_error_response`. -/
def EligibilityAgent.format_error_response (error_message : String) : EligibilityErrorResponse :=
  EligibilityErrorResponse.ofError error_message

/-- Source `EligibilityAgent.execute`, generalized over the filter tool so
that independence from it is expressible (the source calls
`self.condition_matcher.run`). Parameters model the external effects: the
`conditions` entry of the input dict, the outcome of
`list(get_all_documents(BASIC_COLLECTION_NAME))` (which sits inside the
`try` block and may raise), and the timestamp. A missing or `None`
`conditions` value is falsy, so the first guard returns the error response;
the `try/except` converts any raised fault into the error response. -/
def EligibilityAgent.executeGen
    (matcher : EligibilityConditions → List Product → String → EligibilityFilterResult)
    (input_conditions : Option EligibilityConditions)
    (fetch : Except PyErr (List Product)) (now : String) : PipeValue :=
  match input_conditions with
  | none => .eligError (EligibilityAgent.format_error_response "조건 데이터가 제공되지 않았습니다.")
  | some conditions =>
    match fetch with
    | .error e => .eligError (EligibilityAgent.format_error_response e.msg)
    | .ok all_products =>
      if all_products.isEmpty then
        .eligError (EligibilityAgent.format_error_response "분석할 상품 데이터가 없습니다.")
      else
        match EligibilityAgent.format_success_response (matcher conditions all_products now) conditions with
        | .ok response => .eligSuccess response
        | .error e => .eligError (EligibilityAgent.format_error_response e.msg)

/-- Source `EligibilityAgent.execute` as a pipeline step: the
`input_data.get("conditions")` read happens before the `try` block, so a
non-dict input raises out of `execute` (and hence out of the
`RunnableLambda`). -/
def EligibilityAgent.execute (fetch : Except PyErr (List Product)) (now : String)
    (input_data : PipeValue) : Except PyErr PipeValue :=
  match input_data with
  | .inputData conditions =>
    .ok (EligibilityAgent.executeGen ConditionMatcherTool.run conditions fetch now)
  | _ => .error { msg := "AttributeError: object has no attribute get" }

/-- Source `QuestionAgent._format_error_response`. -/
def QuestionAgent.format_error_response (error_message : String) : QuestionErrorResponse :=
  QuestionErrorResponse.ofError error_message

/-- Source `QuestionAgent.execute`. The internal tool chain built by
`_build_runnable_chain` (extractor, pattern analyzer, question generator,
user input, response formatter — all external collaborators) is the opaque
parameter `chain`; the writes to the scoped `QuestionAgentContext` between
validation and the chain call only feed those collaborators, so they are
absorbed into `chain`. Validation raises `ValueError` on a falsy `success`
flag or an empty `result_products`, and the `except` wraps any raised
message. -/
def QuestionAgent.execute (chain : PipeValue → Except PyErr PipeValue)
    (eligibility_response : PipeValue) : PipeValue :=
  let body : Except PyErr PipeValue := do
    let ok ← eligibility_response.successAttr
    if !ok then
      throw { msg := "EligibilityAgent 실행이 실패한 상태입니다." }
    else do
      let nonempty ← eligibility_response.resultProductsTruthy
      if !nonempty then
        throw { msg := "필터링된 상품이 없습니다." }
      else chain eligibility_response
  match body with
  | .ok result => result
  | .error e =>
    .questionError (QuestionAgent.format_error_response
      ("QuestionAgent RunnableSequence 실행 오류: " ++ e.msg))

/-- Source `StrategyAgent._format_success_response`: the dict comprehension
over `user_responses` is modelled as the corresponding association list. -/
def StrategyAgent.format_success_response (scenario_result : StrategyScenarioResult) :
    StrategySuccessResponse :=
  { scenarios := scenario_result.scenarios
    user_conditions := scenario_result.user_conditions
    user_responses := scenario_result.user_responses
    response_summary :=
      scenario_result.user_responses.map (fun r => (r.id, r.response_value))
    interest_calculations := scenario_result.interest_calculations
    processing_step := "strategy_completed"
    next_agent := "ComparatorAgent"
    success := true
    error := none }

/-- Source `StrategyAgent._format_error_response`. -/
def StrategyAgent.format_error_response (error_message : String) : StrategyErrorResponse :=
  StrategyErrorResponse.ofError error_message

/-- Source `StrategyAgent.execute`: validation of the success flag, the
eligible products and the user responses; then the two-tool chain
(interest calculator, scenario builder) as the opaque `chain`; then the
post-checks on `generation_success` and the three-scenario count. The
f-string details of the two post-check messages are abbreviated; every
path ends in a typed strategy response. -/
def StrategyAgent.executeBody (chain : PipeValue → Except PyErr StrategyScenarioResult)
    (question_response : PipeValue) : Except PyErr StrategySuccessResponse := do
    let ok ← question_response.successAttr
    if !ok then
      throw { msg := "QuestionAgent 실행이 실패한 상태입니다." }
    else do
      let hasProducts ← question_response.eligibleProductsTruthy
      if !hasProducts then
        throw { msg := "적격 상품이 없습니다." }
      else do
        let hasResponses ← question_response.userResponsesTruthy
        if !hasResponses then
          throw { msg := "사용자 응답이 없습니다." }
        else do
          let scenario_result ← chain question_response
          if !scenario_result.generation_success then
            throw { msg := "시나리오 생성 실패: " ++ scenario_result.error.getD "None" }
          else if scenario_result.scenarios.isEmpty
              || scenario_result.scenarios.length ≠ 3 then
            throw { msg := "시나리오 개수 오류" }
          else
            pure (StrategyAgent.format_success_response scenario_result)

/-- The surrounding `try/except` of `StrategyAgent.execute`: a clean body
result is returned as the success response, any raised fault becomes the
typed error response. -/
def StrategyAgent.execute (chain : PipeValue → Except PyErr StrategyScenarioResult)
    (question_response : PipeValue) : PipeValue :=
  match StrategyAgent.executeBody chain question_response with
  | .ok response => .strategySuccess response
  | .error e =>
    .strategyError (StrategyAgent.format_error_response
      ("StrategyAgent RunnableSequence 실행 오류: " ++ e.msg))

/-- A pipeline component: `Runnable.invoke` either returns the next value or
raises. -/
abbrev AgentStep := PipeValue → Except PyErr PipeValue

/-- `QuestionAgent.runnable`: the `RunnableLambda` around `execute`, which
never raises (its body is one `try/except`). -/
def QuestionAgent.step (chain : PipeValue → Except PyErr PipeValue) : AgentStep :=
  fun v => .ok (QuestionAgent.execute chain v)

/-- `StrategyAgent.runnable`: the `RunnableLambda` around `execute`. -/
def StrategyAgent.step (chain : PipeValue → Except PyErr StrategyScenarioResult) : AgentStep :=
  fun v => .ok (StrategyAgent.execute chain v)

/-- `RunnableSequence.invoke`: feed each component the previous output,
unconditionally, until one raises or the list ends. -/
def RunnableSequence.invoke : List AgentStep → PipeValue → Except PyErr PipeValue
  | [], v => .ok v
  | s :: rest, v =>
    match s v with
    | .ok v2 => RunnableSequence.invoke rest v2
    | .error e => .error e

/-- `RunnableSequence.invoke`, instrumented: additionally returns the names
of the components whose `invoke` was actually called, in call order. The
control flow is identical to `RunnableSequence.invoke`; the trace is the
observation needed for the short-circuit claim. -/
def RunnableSequence.invokeTraced :
    List (String × AgentStep) → PipeValue → Except PyErr PipeValue × List String
  | [], v => (.ok v, [])
  | (name, s) :: rest, v =>
    match s v with
    | .ok v2 =>
      let r := RunnableSequence.invokeTraced rest v2
      (r.1, name :: r.2)
    | .error e => (.error e, [name])

/-- Source `Pipeline.run`: build the input dict, invoke the sequence, return
its result unchanged; the top-level `except` converts any raised fault into
a `StrategyErrorResponse`. -/
def Pipeline.run (steps : List AgentStep) (conditions : EligibilityConditions) : PipeValue :=
  match RunnableSequence.invoke steps (.inputData (some conditions)) with
  | .ok result => result
  | .error e =>
    .strategyError (StrategyErrorResponse.ofError ("파이프라인 실행 실패: " ++ e.msg))

/-- `Pipeline.run` over the instrumented sequence: same result, plus the
list of components invoked. -/
def Pipeline.runTraced (steps : List (String × AgentStep))
    (conditions : EligibilityConditions) : PipeValue × List String :=
  let r := RunnableSequence.invokeTraced steps (.inputData (some conditions))
  (match r.1 with
   | .ok result => result
   | .error e =>
     .strategyError (StrategyErrorResponse.ofError ("파이프라인 실행 실패: " ++ e.msg)),
   r.2)

/-- The three-agent chain built by `Pipeline.build_pipeline`, with the
external collaborators as parameters. -/
def Pipeline.build (fetch : Except PyErr (List Product)) (now : String)
    (qchain : PipeValue → Except PyErr PipeValue)
    (schain : PipeValue → Except PyErr StrategyScenarioResult) : List AgentStep :=
  [EligibilityAgent.execute fetch now, QuestionAgent.step qchain, StrategyAgent.step schain]

/-- The same chain, with names, for the instrumented runs. -/
def Pipeline.buildTraced (fetch : Except PyErr (List Product)) (now : String)
    (qchain : PipeValue → Except PyErr PipeValue)
    (schain : PipeValue → Except PyErr StrategyScenarioResult) :
    List (String × AgentStep) :=
  [("EligibilityAgent", EligibilityAgent.execute fetch now),
   ("QuestionAgent", QuestionAgent.step qchain),
   ("StrategyAgent", StrategyAgent.step schain)]

/-! ## Lemmas about the sort and the filter stages -/

theorem insertPrimeDesc_perm (p : Product) (l : List Product) :
    List.Perm (insertPrimeDesc p l) (p :: l) := by
  induction l with
  | nil => simp [insertPrimeDesc]
  | cons q qs ih =>
    simp only [insertPrimeDesc]
    by_cases h : p.prime_interest_rate < q.prime_interest_rate
    · simp only [h, if_true]
      exact (ih.cons q).trans (List.Perm.swap p q qs)
    · simp [h]

theorem sortPrimeDesc_perm (l : List Product) : List.Perm (sortPrimeDesc l) l := by
  induction l with
  | nil => simp [sortPrimeDesc]
  | cons p ps ih =>
    simpa [sortPrimeDesc] using (insertPrimeDesc_perm p (sortPrimeDesc ps)).trans (ih.cons p)

theorem length_sortPrimeDesc (l : List Product) : (sortPrimeDesc l).length = l.length :=
  (sortPrimeDesc_perm l).length_eq

theorem mem_sortPrimeDesc {x : Product} {l : List Product} :
    x ∈ sortPrimeDesc l ↔ x ∈ l :=
  (sortPrimeDesc_perm l).mem_iff

/-- The reason dict produced by the rate stage: one `dictSet` per rate
failer, in catalog order. -/
def rateReasonsDict (min_rate : Rat) (products : List Product) : List (String × String) :=
  (products.filter (fun p => !ConditionMatcherTool.check_interest_rate p min_rate)).foldl
    (fun d p => dictSet d p.product_code rateReasonMsg) []

theorem rateStage_go (min_rate : Rat) (ps : List Product)
    (m e : List Product) (d : List (String × String)) :
    ps.foldl
      (fun acc product =>
        if ConditionMatcherTool.check_interest_rate product min_rate then
          (acc.1 ++ [product], acc.2.1, acc.2.2)
        else
          (acc.1, acc.2.1 ++ [product], dictSet acc.2.2 product.product_code rateReasonMsg))
      (m, e, d)
    = (m ++ ps.filter (fun p => ConditionMatcherTool.check_interest_rate p min_rate),
       e ++ ps.filter (fun p => !ConditionMatcherTool.check_interest_rate p min_rate),
       (ps.filter (fun p => !ConditionMatcherTool.check_interest_rate p min_rate)).foldl
         (fun d2 p => dictSet d2 p.product_code rateReasonMsg) d) := by
  induction ps generalizing m e d with
  | nil => simp
  | cons p ps ih =>
    by_cases h : ConditionMatcherTool.check_interest_rate p min_rate
    · simp [h, List.foldl_cons, ih, List.append_assoc]
    · simp [h, List.foldl_cons, ih, List.append_assoc]

theorem rateStage_eq (min_rate : Rat) (ps : List Product) :
    rateStage min_rate ps
    = (ps.filter (fun p => ConditionMatcherTool.check_interest_rate p min_rate),
       ps.filter (fun p => !ConditionMatcherTool.check_interest_rate p min_rate),
       rateReasonsDict min_rate ps) := by
  simpa [rateStage, rateReasonsDict] using rateStage_go min_rate ps [] [] []

/-! ## Lemmas about the reason dict -/

theorem dictSet_of_not_contains {d : List (String × String)} {k v : String}
    (h : dictContains d k = false) : dictSet d k v = d ++ [(k, v)] := by
  unfold dictContains at h
  simp [dictSet, h]

theorem dictSet_key_eq (k v : String) (kv : String × String) :
    (if kv.1 == k then (k, v) else kv).1 = kv.1 := by
  by_cases hk : (kv.1 == k) = true
  · simp [hk, eq_of_beq hk]
  · simp [hk]

theorem dictContains_dictSet (d : List (String × String)) (k v k2 : String) :
    dictContains (dictSet d k v) k2 = true ↔ (dictContains d k2 = true ∨ k = k2) := by
  by_cases hp : dictContains d k = true
  · have hps : d.any (fun kv => kv.1 == k) = true := hp
    have hmap : dictContains (d.map (fun kv => if kv.1 == k then (k, v) else kv)) k2
        = dictContains d k2 := by
      unfold dictContains
      rw [List.any_map]
      congr 1
      funext kv
      simp only [Function.comp]
      rw [dictSet_key_eq k v kv]
    unfold dictSet
    rw [if_pos hps, hmap]
    constructor
    · exact Or.inl
    · rintro (h | rfl)
      · exact h
      · exact hp
  · rw [dictSet_of_not_contains (Bool.eq_false_iff.mpr hp)]
    unfold dictContains
    rw [List.any_append]
    simp only [List.any_cons, List.any_nil, Bool.or_false, Bool.or_eq_true, beq_iff_eq]

theorem dictSet_values {d : List (String × String)} {k v : String}
    (h : ∀ kv ∈ d, kv.2 = v) : ∀ kv ∈ dictSet d k v, kv.2 = v := by
  intro kv hkv
  by_cases hp : dictContains d k = true
  · have hps : d.any (fun x => x.1 == k) = true := hp
    unfold dictSet at hkv
    rw [if_pos hps] at hkv
    rcases List.mem_map.mp hkv with ⟨kv0, hkv0, rfl⟩
    by_cases hk : (kv0.1 == k) = true
    · simp [hk]
    · simp only [hk, if_false]
      exact h kv0 hkv0
  · rw [dictSet_of_not_contains (Bool.eq_false_iff.mpr hp)] at hkv
    rcases List.mem_append.mp hkv with hkv | hkv
    · exact h kv hkv
    · simp only [List.mem_singleton] at hkv
      subst hkv
      rfl

theorem dictContains_foldlSet (msg : String) (l : List Product)
    (d : List (String × String)) (k : String) :
    dictContains (l.foldl (fun d2 p => dictSet d2 p.product_code msg) d) k = true ↔
      (dictContains d k = true ∨ ∃ p ∈ l, p.product_code = k) := by
  induction l generalizing d with
  | nil => simp
  | cons p tl ih =>
    rw [List.foldl_cons, ih, dictContains_dictSet]
    constructor
    · rintro ((h | h) | ⟨q, hq, rfl⟩)
      · exact Or.inl h
      · exact Or.inr ⟨p, List.mem_cons_self p tl, h⟩
      · exact Or.inr ⟨q, List.mem_cons_of_mem p hq, rfl⟩
    · rintro (h | ⟨q, hq, rfl⟩)
      · exact Or.inl (Or.inl h)
      · rcases List.mem_cons.mp hq with rfl | hq
        · exact Or.inl (Or.inr rfl)
        · exact Or.inr ⟨q, hq, rfl⟩

theorem foldlSet_values (msg : String) (l : List Product) (d : List (String × String))
    (h : ∀ kv ∈ d, kv.2 = msg) :
    ∀ kv ∈ l.foldl (fun d2 p => dictSet d2 p.product_code msg) d, kv.2 = msg := by
  induction l generalizing d with
  | nil => simpa using h
  | cons p tl ih => exact ih _ (dictSet_values h)

theorem pyLookup_eq_of_contains {d : List (String × String)} {v k : String}
    (hvals : ∀ kv ∈ d, kv.2 = v) (hc : dictContains d k = true) :
    pyLookup d k = some v := by
  unfold pyLookup
  cases hf : d.find? (fun kv => kv.1 == k) with
  | none =>
    exfalso
    unfold dictContains at hc
    rcases List.any_eq_true.mp hc with ⟨kv, hkv, hb⟩
    have : (d.find? (fun kv => kv.1 == k)).isSome := List.find?_isSome.mpr ⟨kv, hkv, hb⟩
    simp [hf] at this
  | some kv =>
    have hm := List.mem_of_find?_eq_some hf
    simp [hvals kv hm]

theorem pyLookup_append_of_isSome {d s : List (String × String)} {k : String}
    (h : (pyLookup d k).isSome) : pyLookup (d ++ s) k = pyLookup d k := by
  unfold pyLookup at h ⊢
  cases hf : d.find? (fun kv => kv.1 == k) with
  | none => simp [hf] at h
  | some kv => simp [List.find?_append, hf]

/-! ## Lemmas about the final exclusion pass -/

theorem finalExclusionPass_cons (mc : List String) (p : Product) (tl : List Product)
    (exc : List Product) (d : List (String × String)) :
    finalExclusionPass mc (p :: tl) exc d =
      if !(mc.contains p.product_code) && !(dictContains d p.product_code) then
        finalExclusionPass mc tl (exc ++ [p]) (dictSet d p.product_code mismatchReasonMsg)
      else finalExclusionPass mc tl exc d := by
  by_cases h : (!(mc.contains p.product_code) && !(dictContains d p.product_code)) = true
  · simp only [finalExclusionPass, List.foldl_cons, h, if_true]
  · simp only [finalExclusionPass, List.foldl_cons,
      Bool.eq_false_iff.mpr h, Bool.false_eq_true, if_false]

theorem mem_finalExclusionPass_fst (mc : List String) (ps : List Product)
    (exc : List Product) (d : List (String × String)) :
    ∀ x ∈ (finalExclusionPass mc ps exc d).1,
      x ∈ exc ∨ (x ∈ ps ∧ mc.contains x.product_code = false) := by
  induction ps generalizing exc d with
  | nil =>
    intro x hx
    exact Or.inl (by simpa [finalExclusionPass] using hx)
  | cons p tl ih =>
    intro x hx
    rw [finalExclusionPass_cons] at hx
    by_cases hg : (!(mc.contains p.product_code) && !(dictContains d p.product_code)) = true
    · rw [if_pos hg] at hx
      rcases ih _ _ x hx with hx2 | ⟨hmem, hmc⟩
      · rcases List.mem_append.mp hx2 with hx3 | hx3
        · exact Or.inl hx3
        · simp only [List.mem_singleton] at hx3
          subst hx3
          refine Or.inr ⟨List.mem_cons_self x tl, ?_⟩
          have h12 := hg
          rw [Bool.and_eq_true] at h12
          simpa using h12.1
      · exact Or.inr ⟨List.mem_cons_of_mem p hmem, hmc⟩
    · rw [if_neg hg] at hx
      rcases ih _ _ x hx with hx2 | ⟨hmem, hmc⟩
      · exact Or.inl hx2
      · exact Or.inr ⟨List.mem_cons_of_mem p hmem, hmc⟩

theorem finalExclusionPass_snd_append (mc : List String) (ps : List Product)
    (exc : List Product) (d : List (String × String)) :
    ∃ s, (finalExclusionPass mc ps exc d).2 = d ++ s := by
  induction ps generalizing exc d with
  | nil => exact ⟨[], by simp [finalExclusionPass]⟩
  | cons p tl ih =>
    rw [finalExclusionPass_cons]
    by_cases hg : (!(mc.contains p.product_code) && !(dictContains d p.product_code)) = true
    · rw [if_pos hg]
      have h12 := hg
      rw [Bool.and_eq_true] at h12
      have hd : dictContains d p.product_code = false := by simpa using h12.2
      rw [dictSet_of_not_contains hd]
      rcases ih (exc ++ [p]) (d ++ [(p.product_code, mismatchReasonMsg)]) with ⟨s, hs⟩
      exact ⟨(p.product_code, mismatchReasonMsg) :: s, by rw [hs, List.append_assoc]; rfl⟩
    · rw [if_neg hg]
      exact ih exc d

theorem finalExclusionPass_fst_length (mc : List String) (ps : List Product)
    (exc : List Product) (d : List (String × String))
    (h : (ps.map (fun p => p.product_code)).Nodup) :
    (finalExclusionPass mc ps exc d).1.length =
      exc.length +
        (ps.filter (fun p =>
          !(mc.contains p.product_code) && !(dictContains d p.product_code))).length := by
  induction ps generalizing exc d with
  | nil => simp [finalExclusionPass]
  | cons p tl ih =>
    simp only [List.map_cons, List.nodup_cons] at h
    rcases h with ⟨hpn, htl⟩
    rw [finalExclusionPass_cons]
    by_cases hg : (!(mc.contains p.product_code) && !(dictContains d p.product_code)) = true
    · rw [if_pos hg]
      have h12 := hg
      rw [Bool.and_eq_true] at h12
      have hd : dictContains d p.product_code = false := by simpa using h12.2
      rw [ih _ _ htl]
      have hfilters :
          tl.filter (fun q =>
            !(mc.contains q.product_code)
              && !(dictContains (dictSet d p.product_code mismatchReasonMsg) q.product_code))
          = tl.filter (fun q =>
            !(mc.contains q.product_code) && !(dictContains d q.product_code)) := by
        apply List.filter_congr
        intro q hq
        have hne : p.product_code ≠ q.product_code := by
          intro he
          exact hpn (he ▸ List.mem_map_of_mem (fun r => r.product_code) hq)
        have hcd : dictContains (dictSet d p.product_code mismatchReasonMsg) q.product_code
            = dictContains d q.product_code := by
          by_cases hc : dictContains (dictSet d p.product_code mismatchReasonMsg) q.product_code = true
          · rcases (dictContains_dictSet d p.product_code mismatchReasonMsg q.product_code).mp hc
              with hc2 | hc2
            · rw [hc, hc2]
            · exact absurd hc2 hne
          · have hc2 : dictContains d q.product_code = false := by
              by_contra hc3
              have hc4 : dictContains d q.product_code = true := by
                cases hb : dictContains d q.product_code
                · exact absurd hb hc3
                · rfl
              exact hc ((dictContains_dictSet d p.product_code mismatchReasonMsg
                q.product_code).mpr (Or.inl hc4))
            rw [hc2, Bool.eq_false_iff.mpr hc]
        rw [hcd]
      rw [hfilters]
      simp only [List.filter_cons, hg, if_true, List.length_append, List.length_cons,
        List.length_nil]
      omega
    · rw [if_neg hg]
      rw [ih _ _ htl]
      have hg2 : ¬(p.product_code ∉ mc ∧ dictContains d p.product_code = false) := by
        intro hcon
        apply hg
        simp [hcon.1, hcon.2]
      simp [List.filter_cons, hg2]

/-! ## Lemmas about the category and special-condition stages -/

theorem apply_category_filters_cons (l : List Product) (c : String) (cs : List String) :
    ConditionMatcherTool.apply_category_filters l (c :: cs)
      = ConditionMatcherTool.apply_category_filters
          (l.filter (fun p => p.categories.contains c)) cs := rfl

theorem apply_category_filters_sublist (l : List Product) (cats : List String) :
    List.Sublist (ConditionMatcherTool.apply_category_filters l cats) l := by
  induction cats generalizing l with
  | nil => exact List.Sublist.refl l
  | cons c cs ih =>
    rw [apply_category_filters_cons]
    exact (ih _).trans (List.filter_sublist l)

theorem mem_apply_category_filters {l : List Product} {cats : List String} {x : Product}
    (hx : x ∈ ConditionMatcherTool.apply_category_filters l cats) :
    ∀ c ∈ cats, x.categories.contains c = true := by
  induction cats generalizing l with
  | nil => simp
  | cons c cs ih =>
    rw [apply_category_filters_cons] at hx
    intro c2 hc2
    rcases List.mem_cons.mp hc2 with rfl | hc2
    · have hxf := (apply_category_filters_sublist _ cs).subset hx
      exact (List.mem_filter.mp hxf).2
    · exact ih hx c2 hc2

theorem apply_special_condition_filters_cons (l : List Product) (c : String)
    (cs : List String) :
    ConditionMatcherTool.apply_special_condition_filters l (c :: cs)
      = ConditionMatcherTool.apply_special_condition_filters
          (l.filter (fun p => (p.special_conditions.lookup c).getD false)) cs := rfl

theorem apply_special_condition_filters_sublist (l : List Product) (cs : List String) :
    List.Sublist (ConditionMatcherTool.apply_special_condition_filters l cs) l := by
  induction cs generalizing l with
  | nil => exact List.Sublist.refl l
  | cons c cs ih =>
    rw [apply_special_condition_filters_cons]
    exact (ih _).trans (List.filter_sublist l)

theorem mem_apply_special_condition_filters {l : List Product} {cs : List String}
    {x : Product}
    (hx : x ∈ ConditionMatcherTool.apply_special_condition_filters l cs) :
    ∀ c ∈ cs, (x.special_conditions.lookup c).getD false = true := by
  induction cs generalizing l with
  | nil => simp
  | cons c cs ih =>
    rw [apply_special_condition_filters_cons] at hx
    intro c2 hc2
    rcases List.mem_cons.mp hc2 with rfl | hc2
    · have hxf := (apply_special_condition_filters_sublist _ cs).subset hx
      exact (List.mem_filter.mp hxf).2
    · exact ih hx c2 hc2

theorem stage3Survivors_sublist_ratePass (c : EligibilityConditions) (ps : List Product) :
    List.Sublist (stage3Survivors c ps)
      (ps.filter (fun p => ConditionMatcherTool.check_interest_rate p c.min_interest_rate)) := by
  unfold stage3Survivors
  rw [rateStage_eq]
  by_cases hcat : c.categories.isEmpty
  · by_cases hsp : c.special_conditions.isEmpty
    · simp only [hcat, hsp, if_true]
      exact List.Sublist.refl _
    · simp only [hcat, hsp, if_true, if_false]
      exact apply_special_condition_filters_sublist _ _
  · by_cases hsp : c.special_conditions.isEmpty
    · simp only [hcat, hsp, if_true, if_false]
      exact apply_category_filters_sublist _ _
    · simp only [hcat, hsp, if_false]
      exact (apply_special_condition_filters_sublist _ _).trans
        (apply_category_filters_sublist _ _)

theorem stage3Survivors_sublist (c : EligibilityConditions) (ps : List Product) :
    List.Sublist (stage3Survivors c ps) ps :=
  (stage3Survivors_sublist_ratePass c ps).trans (List.filter_sublist ps)

theorem check_of_mem_stage3Survivors {c : EligibilityConditions} {ps : List Product}
    {p : Product} (hp : p ∈ stage3Survivors c ps) :
    ConditionMatcherTool.check_interest_rate p c.min_interest_rate = true :=
  (List.mem_filter.mp ((stage3Survivors_sublist_ratePass c ps).subset hp)).2

theorem stage3Survivors_tags {c : EligibilityConditions} {ps : List Product} {p : Product}
    (hp : p ∈ stage3Survivors c ps) :
    (∀ cat ∈ c.categories, p.categories.contains cat = true) ∧
      (∀ s ∈ c.special_conditions, (p.special_conditions.lookup s).getD false = true) := by
  unfold stage3Survivors at hp
  by_cases hsp : c.special_conditions.isEmpty
  · rw [if_pos hsp] at hp
    have hspnil : c.special_conditions = [] := List.isEmpty_iff.mp hsp
    refine ⟨?_, by simp [hspnil]⟩
    by_cases hcat : c.categories.isEmpty
    · have : c.categories = [] := List.isEmpty_iff.mp hcat
      simp [this]
    · rw [if_neg hcat] at hp
      exact mem_apply_category_filters hp
  · rw [if_neg hsp] at hp
    refine ⟨?_, mem_apply_special_condition_filters hp⟩
    have hp2 := (apply_special_condition_filters_sublist _ _).subset hp
    by_cases hcat : c.categories.isEmpty
    · have : c.categories = [] := List.isEmpty_iff.mp hcat
      simp [this]
    · rw [if_neg hcat] at hp2
      exact mem_apply_category_filters hp2

/-! ## Lemmas about the rebalancing stage -/

theorem apply_count_rebalancing_length_le (m a : List Product) :
    (ConditionMatcherTool.apply_count_rebalancing m a).length ≤ 30 := by
  unfold ConditionMatcherTool.apply_count_rebalancing
  by_cases hba : (m.isEmpty && a.isEmpty) = true
  · simp [hba]
  · rw [if_neg hba]
    by_cases h15 : (sortPrimeDesc m).length < 15
    · rw [if_pos h15]
      rw [List.length_append, List.length_take]
      omega
    · rw [if_neg h15]
      by_cases h30 : (sortPrimeDesc m).length > 30
      · rw [if_pos h30, List.length_take]
        omega
      · rw [if_neg h30]
        omega

theorem apply_count_rebalancing_length_lower (m a : List Product)
    (h : (a.map (fun p => p.product_code)).Nodup) :
    min 15 a.length ≤ (ConditionMatcherTool.apply_count_rebalancing m a).length := by
  unfold ConditionMatcherTool.apply_count_rebalancing
  by_cases hba : (m.isEmpty && a.isEmpty) = true
  · have ha : a.isEmpty = true := (Bool.and_eq_true _ _ ▸ hba).2
    have : a = [] := List.isEmpty_iff.mp ha
    simp [hba, this]
  · rw [if_neg hba]
    by_cases h15 : (sortPrimeDesc m).length < 15
    · rw [if_pos h15]
      rw [List.length_append, List.length_take, length_sortPrimeDesc]
      have hsplit := a.length_eq_length_filter_add
        (fun p => ((sortPrimeDesc m).map (fun q => q.product_code)).contains p.product_code)
      have hhits :
          (a.filter (fun p =>
            ((sortPrimeDesc m).map (fun q => q.product_code)).contains p.product_code)).length
          ≤ (sortPrimeDesc m).length := by
        set mcodes := (sortPrimeDesc m).map (fun q => q.product_code) with hmc
        have hnod :
            ((a.filter (fun p => mcodes.contains p.product_code)).map
              (fun p => p.product_code)).Nodup :=
          ((List.filter_sublist a).map (fun p => p.product_code)).nodup h
        have hsub :
            (a.filter (fun p => mcodes.contains p.product_code)).map
              (fun p => p.product_code) ⊆ mcodes := by
          intro x hx
          rcases List.mem_map.mp hx with ⟨p, hp, rfl⟩
          have := (List.mem_filter.mp hp).2
          simpa using this
        have := (hnod.subperm hsub).length_le
        calc (a.filter (fun p => mcodes.contains p.product_code)).length
            = ((a.filter (fun p => mcodes.contains p.product_code)).map
                (fun p => p.product_code)).length := (List.length_map _ _).symm
          _ ≤ mcodes.length := this
          _ = (sortPrimeDesc m).length := by rw [hmc, List.length_map]
      rw [length_sortPrimeDesc] at hhits
      rw [length_sortPrimeDesc] at h15
      rw [length_sortPrimeDesc]
      omega
    · rw [if_neg h15]
      rw [length_sortPrimeDesc] at h15
      by_cases h30 : (sortPrimeDesc m).length > 30
      · rw [if_pos h30, List.length_take, length_sortPrimeDesc]
        rw [length_sortPrimeDesc] at h30
        omega
      · rw [if_neg h30, length_sortPrimeDesc]
        rw [length_sortPrimeDesc] at h30
        omega

theorem mem_apply_count_rebalancing_of_15_le {m a : List Product} {x : Product}
    (h15 : 15 ≤ m.length)
    (hx : x ∈ ConditionMatcherTool.apply_count_rebalancing m a) : x ∈ m := by
  unfold ConditionMatcherTool.apply_count_rebalancing at hx
  by_cases hba : (m.isEmpty && a.isEmpty) = true
  · have hm : m.isEmpty = true := (Bool.and_eq_true _ _ ▸ hba).1
    rw [List.isEmpty_iff.mp hm] at h15
    simp at h15
  · rw [if_neg hba] at hx
    have hlen : ¬((sortPrimeDesc m).length < 15) := by
      rw [length_sortPrimeDesc]
      omega
    rw [if_neg hlen] at hx
    by_cases h30 : (sortPrimeDesc m).length > 30
    · rw [if_pos h30] at hx
      exact mem_sortPrimeDesc.mp ((List.take_sublist 30 _).subset hx)
    · rw [if_neg h30] at hx
      exact mem_sortPrimeDesc.mp hx

theorem mem_apply_count_rebalancing {m a : List Product} {x : Product}
    (hx : x ∈ ConditionMatcherTool.apply_count_rebalancing m a) :
    x ∈ m ∨ x.product_code ∉ m.map (fun p => p.product_code) := by
  unfold ConditionMatcherTool.apply_count_rebalancing at hx
  by_cases hba : (m.isEmpty && a.isEmpty) = true
  · simp [hba] at hx
  · rw [if_neg hba] at hx
    by_cases h15 : (sortPrimeDesc m).length < 15
    · rw [if_pos h15] at hx
      rcases List.mem_append.mp hx with hx2 | hx2
      · exact Or.inl (mem_sortPrimeDesc.mp hx2)
      · have hx3 := mem_sortPrimeDesc.mp ((List.take_sublist _ _).subset hx2)
        have hpred := (List.mem_filter.mp hx3).2
        right
        intro hmem
        have : x.product_code ∈ (sortPrimeDesc m).map (fun p => p.product_code) :=
          ((sortPrimeDesc_perm m).map (fun p => p.product_code)).mem_iff.mpr hmem
        have hct : ((sortPrimeDesc m).map (fun p => p.product_code)).contains
            x.product_code = true := by simpa using this
        rw [hct] at hpred
        simp at hpred
    · rw [if_neg h15] at hx
      by_cases h30 : (sortPrimeDesc m).length > 30
      · rw [if_pos h30] at hx
        exact Or.inl (mem_sortPrimeDesc.mp ((List.take_sublist 30 _).subset hx))
      · rw [if_neg h30] at hx
        exact Or.inl (mem_sortPrimeDesc.mp hx)

/-! ## Projections of `ConditionMatcherTool.run` -/

theorem run_matched_products (c : EligibilityConditions) (ps : List Product) (now : String) :
    (ConditionMatcherTool.run c ps now).matched_products
      = ConditionMatcherTool.apply_count_rebalancing (stage3Survivors c ps) ps := rfl

theorem run_excluded_products (c : EligibilityConditions) (ps : List Product) (now : String) :
    (ConditionMatcherTool.run c ps now).excluded_products
      = (finalExclusionPass
          ((ConditionMatcherTool.apply_count_rebalancing (stage3Survivors c ps) ps).map
            (fun p => p.product_code))
          ps (rateStage c.min_interest_rate ps).2.1 (rateStage c.min_interest_rate ps).2.2).1 := rfl

theorem run_exclusion_reasons (c : EligibilityConditions) (ps : List Product) (now : String) :
    (ConditionMatcherTool.run c ps now).exclusion_reasons
      = (finalExclusionPass
          ((ConditionMatcherTool.apply_count_rebalancing (stage3Survivors c ps) ps).map
            (fun p => p.product_code))
          ps (rateStage c.min_interest_rate ps).2.1 (rateStage c.min_interest_rate ps).2.2).2 := rfl

theorem run_total_analyzed (c : EligibilityConditions) (ps : List Product) (now : String) :
    (ConditionMatcherTool.run c ps now).total_analyzed
      = (ConditionMatcherTool.run c ps now).matched_products.length
        + (ConditionMatcherTool.run c ps now).excluded_products.length := rfl

theorem run_match_count (c : EligibilityConditions) (ps : List Product) (now : String) :
    (ConditionMatcherTool.run c ps now).match_count
      = (ConditionMatcherTool.run c ps now).matched_products.length := rfl

theorem run_match_rate (c : EligibilityConditions) (ps : List Product) (now : String) :
    (ConditionMatcherTool.run c ps now).match_rate
      = if (ConditionMatcherTool.run c ps now).total_analyzed > 0 then
          ((ConditionMatcherTool.run c ps now).matched_products.length : Rat)
            / ((ConditionMatcherTool.run c ps now).total_analyzed : Rat) * 100
        else 0 := rfl

theorem contains_congr_mem {A B : List String} (c : String) (h : c ∈ A ↔ c ∈ B) :
    A.contains c = B.contains c := by
  show List.elem c A = List.elem c B
  rw [List.elem_eq_mem, List.elem_eq_mem]
  exact decide_eq_decide.mpr h

/-- The rebalancing stage exactly as the specification words it: survivors
stably sorted descending by promotional rate; below 15 survivors, extended
by the top missing count of the catalog minus already-included product
codes (stably sorted the same way); above 30, truncated to the first 30 of
the sorted list; otherwise the sorted list unchanged. -/
def rebalanceSpecification (survivors catalog : List Product) : List Product :=
  let sorted := sortPrimeDesc survivors
  if survivors.length < 15 then
    sorted ++
      (sortPrimeDesc (catalog.filter (fun p =>
        !((survivors.map (fun q => q.product_code)).contains p.product_code)))).take
        (15 - survivors.length)
  else if survivors.length > 30 then sorted.take 30
  else sorted

/-- C5: for every list of stage-3 survivors and every catalog, the
rebalancing stage output equals the specification formula: survivors stably
sorted descending by promotional rate; if fewer than 15 survivors, extended
by the top shortfall products of the catalog minus already-included product
codes, themselves stably sorted descending; if more than 30 survivors,
truncated to the first 30 of the sorted list; otherwise the sorted list
unchanged. -/
theorem claim_C5_rebalancing_matches_spec (survivors catalog : List Product) :
    ConditionMatcherTool.apply_count_rebalancing survivors catalog
      = rebalanceSpecification survivors catalog := by
  have hfil : catalog.filter (fun p =>
      !(((sortPrimeDesc survivors).map (fun q => q.product_code)).contains p.product_code))
      = catalog.filter (fun p =>
      !((survivors.map (fun q => q.product_code)).contains p.product_code)) := by
    apply List.filter_congr
    intro p _
    rw [contains_congr_mem p.product_code
      (((sortPrimeDesc_perm survivors).map (fun q => q.product_code)).mem_iff)]
  by_cases hba : (survivors.isEmpty && catalog.isEmpty) = true
  · have hs : survivors = [] := List.isEmpty_iff.mp (Bool.and_eq_true _ _ ▸ hba).1
    have hc : catalog = [] := List.isEmpty_iff.mp (Bool.and_eq_true _ _ ▸ hba).2
    subst hs
    subst hc
    simp [ConditionMatcherTool.apply_count_rebalancing, rebalanceSpecification, sortPrimeDesc]
  · simp only [ConditionMatcherTool.apply_count_rebalancing, rebalanceSpecification]
    rw [if_neg hba, length_sortPrimeDesc, hfil]

theorem rateStage_fst (r : Rat) (ps : List Product) :
    (rateStage r ps).1
      = ps.filter (fun p => ConditionMatcherTool.check_interest_rate p r) := by
  rw [rateStage_eq]

theorem rateStage_snd_fst (r : Rat) (ps : List Product) :
    (rateStage r ps).2.1
      = ps.filter (fun p => !ConditionMatcherTool.check_interest_rate p r) := by
  rw [rateStage_eq]

theorem rateStage_snd_snd (r : Rat) (ps : List Product) :
    (rateStage r ps).2.2 = rateReasonsDict r ps := by
  rw [rateStage_eq]

/-- C4: for all conditions and catalogs, the matched set size is in
[0, 30]; and whenever the catalog holds at least 15 products (with the
product codes pairwise distinct, as the data model requires of the unique
identifier), the matched set size is at least min 15 the catalog size. -/
theorem claim_C4_matched_size_bounds (c : EligibilityConditions) (ps : List Product)
    (now : String) :
    (ConditionMatcherTool.run c ps now).matched_products.length ≤ 30 ∧
      ((ps.map (fun p => p.product_code)).Nodup → 15 ≤ ps.length →
        min 15 ps.length ≤ (ConditionMatcherTool.run c ps now).matched_products.length) := by
  rw [run_matched_products]
  exact ⟨apply_count_rebalancing_length_le _ _,
    fun hnd _ => apply_count_rebalancing_length_lower _ _ hnd⟩

/-- C7: every matched product is a stage-3 survivor or a backfill (its code
absent from the survivor codes); and every matched product that is a
stage-3 survivor satisfies all required category tags and all required
special-condition tags conjunctively (hence a product missing any required
tag is never a non-backfilled matched product). -/
theorem claim_C7_nonbackfilled_tags (c : EligibilityConditions) (ps : List Product)
    (now : String) (p : Product)
    (hm : p ∈ (ConditionMatcherTool.run c ps now).matched_products) :
    (p ∈ stage3Survivors c ps ∨
      p.product_code ∉ (stage3Survivors c ps).map (fun q => q.product_code)) ∧
    (p ∈ stage3Survivors c ps →
      (∀ cat ∈ c.categories, p.categories.contains cat = true) ∧
        (∀ s ∈ c.special_conditions, (p.special_conditions.lookup s).getD false = true)) := by
  rw [run_matched_products] at hm
  exact ⟨mem_apply_count_rebalancing hm, fun hs => stage3Survivors_tags hs⟩

/-- C3 (amended): when no backfill occurs (at least 15 stage-3 survivors)
and catalog product codes are pairwise distinct, the matched and excluded
lists are code-disjoint; and in every case a product eliminated at the rate
stage keeps exactly that first reason (the reason map never overwrites it).
Without these hypotheses a rate-excluded product can be re-introduced by
the backfill and then appears in both lists. -/
theorem claim_C3_amended (c : EligibilityConditions) (ps : List Product) (now : String) :
    ((ps.map (fun p => p.product_code)).Nodup →
      15 ≤ (stage3Survivors c ps).length →
      ∀ q ∈ (ConditionMatcherTool.run c ps now).matched_products,
        ∀ q2 ∈ (ConditionMatcherTool.run c ps now).excluded_products,
          q.product_code ≠ q2.product_code) ∧
    (∀ p ∈ ps, ConditionMatcherTool.check_interest_rate p c.min_interest_rate = false →
      pyLookup (ConditionMatcherTool.run c ps now).exclusion_reasons p.product_code
        = some rateReasonMsg) := by
  constructor
  · intro hnd hs15 q hq q2 hq2 he
    rw [run_matched_products] at hq
    have hqS : q ∈ stage3Survivors c ps := mem_apply_count_rebalancing_of_15_le hs15 hq
    have hqpass := check_of_mem_stage3Survivors hqS
    have hqps : q ∈ ps := (stage3Survivors_sublist c ps).subset hqS
    rw [run_excluded_products] at hq2
    rcases mem_finalExclusionPass_fst _ _ _ _ q2 hq2 with h1 | ⟨_, hmc⟩
    · rw [rateStage_snd_fst] at h1
      rcases List.mem_filter.mp h1 with ⟨hq2ps, hq2fail⟩
      have heq : q = q2 := List.inj_on_of_nodup_map hnd hqps hq2ps he
      subst heq
      rw [hqpass] at hq2fail
      simp at hq2fail
    · have hqc : q.product_code ∈ (ConditionMatcherTool.apply_count_rebalancing
          (stage3Survivors c ps) ps).map (fun p => p.product_code) :=
        List.mem_map_of_mem _ hq
      rw [he] at hqc
      have hct : ((ConditionMatcherTool.apply_count_rebalancing
          (stage3Survivors c ps) ps).map (fun p => p.product_code)).contains
          q2.product_code = true := by simpa using hqc
      rw [hmc] at hct
      exact Bool.noConfusion hct
  · intro p hp hfail
    have hvals : ∀ kv ∈ rateReasonsDict c.min_interest_rate ps, kv.2 = rateReasonMsg := by
      intro kv hkv
      unfold rateReasonsDict at hkv
      exact foldlSet_values rateReasonMsg _ [] (by simp) kv hkv
    have hcont : dictContains (rateReasonsDict c.min_interest_rate ps) p.product_code
        = true := by
      unfold rateReasonsDict
      exact (dictContains_foldlSet _ _ _ _).mpr
        (Or.inr ⟨p, List.mem_filter.mpr ⟨hp, by simp [hfail]⟩, rfl⟩)
    have hlook := pyLookup_eq_of_contains hvals hcont
    rw [run_exclusion_reasons, rateStage_snd_fst, rateStage_snd_snd]
    rcases finalExclusionPass_snd_append
      ((ConditionMatcherTool.apply_count_rebalancing (stage3Survivors c ps) ps).map
        (fun p => p.product_code)) ps
      (ps.filter (fun p => !ConditionMatcherTool.check_interest_rate p c.min_interest_rate))
      (rateReasonsDict c.min_interest_rate ps) with ⟨s, hs⟩
    rw [hs, pyLookup_append_of_isSome (by simp [hlook])]
    exact hlook

theorem length_filter_split (l : List Product) (f : Product → Bool) :
    (l.filter f).length + (l.filter (fun p => !(f p))).length = l.length := by
  induction l with
  | nil => simp
  | cons a tl ih =>
    by_cases h : f a = true
    · simp only [List.filter_cons, h, Bool.not_true, Bool.false_eq_true, if_true, if_false,
        List.length_cons]
      omega
    · have h2 : f a = false := Bool.eq_false_iff.mpr h
      simp only [List.filter_cons, h2, Bool.not_false, Bool.false_eq_true, if_true, if_false,
        List.length_cons]
      omega

theorem dictContains_rateReasonsDict (r : Rat) (ps : List Product) (k : String) :
    dictContains (rateReasonsDict r ps) k = true ↔
      ∃ p ∈ ps, ConditionMatcherTool.check_interest_rate p r = false ∧ p.product_code = k := by
  unfold rateReasonsDict
  rw [dictContains_foldlSet]
  constructor
  · rintro (h | ⟨p, hp, rfl⟩)
    · simp [dictContains] at h
    · rcases List.mem_filter.mp hp with ⟨hps, hfail⟩
      exact ⟨p, hps, by simpa using hfail, rfl⟩
  · rintro ⟨p, hps, hfail, rfl⟩
    exact Or.inr ⟨p, List.mem_filter.mpr ⟨hps, by simp [hfail]⟩, rfl⟩

theorem apply_count_rebalancing_sublist_sorted {m : List Product} (a : List Product)
    (h15 : 15 ≤ m.length) :
    List.Sublist (ConditionMatcherTool.apply_count_rebalancing m a) (sortPrimeDesc m) := by
  unfold ConditionMatcherTool.apply_count_rebalancing
  by_cases hba : (m.isEmpty && a.isEmpty) = true
  · have hm : m.isEmpty = true := (Bool.and_eq_true _ _ ▸ hba).1
    rw [List.isEmpty_iff.mp hm] at h15
    simp at h15
  · rw [if_neg hba]
    have hlen : ¬((sortPrimeDesc m).length < 15) := by
      rw [length_sortPrimeDesc]
      omega
    rw [if_neg hlen]
    by_cases h30 : (sortPrimeDesc m).length > 30
    · rw [if_pos h30]
      exact List.take_sublist 30 _
    · rw [if_neg h30]

theorem run_total_eq_catalog_length (c : EligibilityConditions) (ps : List Product)
    (now : String) (hnd : (ps.map (fun p => p.product_code)).Nodup)
    (hs15 : 15 ≤ (stage3Survivors c ps).length) :
    (ConditionMatcherTool.run c ps now).total_analyzed = ps.length := by
  have hps_nodup : ps.Nodup := List.Nodup.of_map (fun p => p.product_code) hnd
  rw [run_total_analyzed, run_matched_products, run_excluded_products,
    rateStage_snd_fst, rateStage_snd_snd]
  have hexc := finalExclusionPass_fst_length
    ((ConditionMatcherTool.apply_count_rebalancing (stage3Survivors c ps) ps).map
      (fun p => p.product_code)) ps
    (ps.filter (fun p => !ConditionMatcherTool.check_interest_rate p c.min_interest_rate))
    (rateReasonsDict c.min_interest_rate ps) hnd
  have hDC : ∀ p ∈ ps,
      dictContains (rateReasonsDict c.min_interest_rate ps) p.product_code
        = !(ConditionMatcherTool.check_interest_rate p c.min_interest_rate) := by
    intro p hp
    by_cases hc : ConditionMatcherTool.check_interest_rate p c.min_interest_rate = true
    · rw [hc]
      cases hb : dictContains (rateReasonsDict c.min_interest_rate ps) p.product_code
      · rfl
      · exfalso
        rcases (dictContains_rateReasonsDict _ _ _).mp hb with ⟨q, hq, hqf, hqc⟩
        have heq : q = p := List.inj_on_of_nodup_map hnd hq hp hqc
        subst heq
        rw [hc] at hqf
        exact Bool.noConfusion hqf
    · have hc2 := Bool.eq_false_iff.mpr hc
      rw [hc2, (dictContains_rateReasonsDict _ _ _).mpr ⟨p, hp, hc2, rfl⟩]
      rfl
  have hadds : ps.filter (fun p =>
        !(((ConditionMatcherTool.apply_count_rebalancing (stage3Survivors c ps) ps).map
          (fun q => q.product_code)).contains p.product_code)
          && !(dictContains (rateReasonsDict c.min_interest_rate ps) p.product_code))
      = ps.filter (fun p =>
        !(((ConditionMatcherTool.apply_count_rebalancing (stage3Survivors c ps) ps).map
          (fun q => q.product_code)).contains p.product_code)
          && ConditionMatcherTool.check_interest_rate p c.min_interest_rate) := by
    apply List.filter_congr
    intro p hp
    rw [hDC p hp, Bool.not_not]
  have h1 := length_filter_split ps
    (fun p => ConditionMatcherTool.check_interest_rate p c.min_interest_rate)
  have h2 := length_filter_split
    (ps.filter (fun p => ConditionMatcherTool.check_interest_rate p c.min_interest_rate))
    (fun p => ((ConditionMatcherTool.apply_count_rebalancing (stage3Survivors c ps) ps).map
      (fun q => q.product_code)).contains p.product_code)
  have h3 : (ps.filter (fun p =>
        ConditionMatcherTool.check_interest_rate p c.min_interest_rate)).filter
        (fun p => !(((ConditionMatcherTool.apply_count_rebalancing
          (stage3Survivors c ps) ps).map (fun q => q.product_code)).contains p.product_code))
      = ps.filter (fun p =>
        !(((ConditionMatcherTool.apply_count_rebalancing (stage3Survivors c ps) ps).map
          (fun q => q.product_code)).contains p.product_code)
          && ConditionMatcherTool.check_interest_rate p c.min_interest_rate) :=
    List.filter_filter _ ps
  have hMsubS : ∀ x ∈ ConditionMatcherTool.apply_count_rebalancing (stage3Survivors c ps) ps,
      x ∈ stage3Survivors c ps :=
    fun x hx => mem_apply_count_rebalancing_of_15_le hs15 hx
  have hSsub := stage3Survivors_sublist c ps
  have hSnodup : (stage3Survivors c ps).Nodup := hSsub.nodup hps_nodup
  have hM_nodup : (ConditionMatcherTool.apply_count_rebalancing
      (stage3Survivors c ps) ps).Nodup :=
    (apply_count_rebalancing_sublist_sorted ps hs15).nodup
      (((sortPrimeDesc_perm (stage3Survivors c ps)).nodup_iff).mpr hSnodup)
  have hFF_nodup : ((ps.filter (fun p =>
      ConditionMatcherTool.check_interest_rate p c.min_interest_rate)).filter
      (fun p => ((ConditionMatcherTool.apply_count_rebalancing
        (stage3Survivors c ps) ps).map (fun q => q.product_code)).contains
        p.product_code)).Nodup :=
    ((List.filter_sublist _).trans (List.filter_sublist _)).nodup hps_nodup
  have hperm : List.Perm
      ((ps.filter (fun p =>
        ConditionMatcherTool.check_interest_rate p c.min_interest_rate)).filter
        (fun p => ((ConditionMatcherTool.apply_count_rebalancing
          (stage3Survivors c ps) ps).map (fun q => q.product_code)).contains
          p.product_code))
      (ConditionMatcherTool.apply_count_rebalancing (stage3Survivors c ps) ps) := by
    rw [List.perm_ext_iff_of_nodup hFF_nodup hM_nodup]
    intro x
    constructor
    · intro hx
      rcases List.mem_filter.mp hx with ⟨hx1, hxc⟩
      have hxps : x ∈ ps := (List.mem_filter.mp hx1).1
      have hxm : x.product_code ∈ (ConditionMatcherTool.apply_count_rebalancing
          (stage3Survivors c ps) ps).map (fun q => q.product_code) := by simpa using hxc
      rcases List.mem_map.mp hxm with ⟨y, hyM, hyc⟩
      have hyps : y ∈ ps := hSsub.subset (hMsubS y hyM)
      have heq : y = x := List.inj_on_of_nodup_map hnd hyps hxps hyc
      subst heq
      exact hyM
    · intro hx
      have hxS := hMsubS x hx
      refine List.mem_filter.mpr ⟨List.mem_filter.mpr
        ⟨hSsub.subset hxS, check_of_mem_stage3Survivors hxS⟩, ?_⟩
      simpa using List.mem_map_of_mem (fun q => q.product_code) hx
  have hlen := hperm.length_eq
  rw [hexc, hadds, ← h3]
  omega

/-- C6 (amended): unconditionally, the reported total equals the matched
plus excluded list lengths and the match rate is matched over total times
100 (0 when total is 0); the total additionally equals the catalog size
whenever no backfill occurs (at least 15 stage-3 survivors) and catalog
codes are pairwise distinct. Without those two hypotheses a rate-excluded
product re-introduced by backfill is counted in both lists and the total
exceeds the catalog size. -/
theorem claim_C6_amended (c : EligibilityConditions) (ps : List Product) (now : String) :
    (ConditionMatcherTool.run c ps now).total_analyzed
      = (ConditionMatcherTool.run c ps now).matched_products.length
        + (ConditionMatcherTool.run c ps now).excluded_products.length ∧
    ((ConditionMatcherTool.run c ps now).total_analyzed = 0 →
      (ConditionMatcherTool.run c ps now).match_rate = 0) ∧
    (0 < (ConditionMatcherTool.run c ps now).total_analyzed →
      (ConditionMatcherTool.run c ps now).match_rate
        = ((ConditionMatcherTool.run c ps now).match_count : Rat)
          / ((ConditionMatcherTool.run c ps now).total_analyzed : Rat) * 100) ∧
    ((ps.map (fun p => p.product_code)).Nodup →
      15 ≤ (stage3Survivors c ps).length →
      (ConditionMatcherTool.run c ps now).total_analyzed = ps.length) := by
  refine ⟨run_total_analyzed c ps now, ?_, ?_,
    fun hnd hs15 => run_total_eq_catalog_length c ps now hnd hs15⟩
  · intro h0
    rw [run_match_rate, if_neg (by omega)]
  · intro hpos
    rw [run_match_rate, if_pos hpos, run_match_count]

/-- Conditions used by the counterexamples: minimum rate 2 percent, no tag
requirements. -/
def cxConditions : EligibilityConditions := { min_interest_rate := 2 }

/-- A product whose best rate (1 percent) misses the 2 percent minimum: it
is excluded at the rate stage and then re-introduced by the backfill. -/
def cxProduct : Product :=
  { product_code := "X1", interest_rate := 1, prime_interest_rate := 1 }

/-- C3 counterexample: on the one-product catalog whose product fails the
rate stage, the product is recorded as excluded with the rate-stage reason
and nevertheless appears in the final matched list (re-introduced by the
backfill), so the matched and excluded lists are not disjoint. -/
theorem claim_C3_counterexample :
    cxProduct ∈ (ConditionMatcherTool.run cxConditions [cxProduct] "t0").matched_products
    ∧ cxProduct ∈ (ConditionMatcherTool.run cxConditions [cxProduct] "t0").excluded_products
    ∧ pyLookup (ConditionMatcherTool.run cxConditions [cxProduct] "t0").exclusion_reasons
        "X1" = some rateReasonMsg := by
  decide

/-- C6 counterexample: on the same one-product catalog the summary reports
2 products examined although the catalog holds a single product (the
backfilled product is counted in both lists). -/
theorem claim_C6_counterexample :
    (ConditionMatcherTool.run cxConditions [cxProduct] "t0").total_analyzed = 2
    ∧ ([cxProduct] : List Product).length = 1 := by
  decide

/-- Witness conditions: minimum rate 1 percent, no tag requirements. -/
def witConditions : EligibilityConditions := { min_interest_rate := 1 }

/-- Witness catalog: 15 products with pairwise distinct codes, all meeting
the 1 percent minimum rate. -/
def witCatalog : List Product :=
  [{ product_code := "P01", interest_rate := 1, prime_interest_rate := 5 },
   { product_code := "P02", interest_rate := 1, prime_interest_rate := 4 },
   { product_code := "P03", interest_rate := 2, prime_interest_rate := 4 },
   { product_code := "P04", interest_rate := 1, prime_interest_rate := 3 },
   { product_code := "P05", interest_rate := 2, prime_interest_rate := 3 },
   { product_code := "P06", interest_rate := 1, prime_interest_rate := 2 },
   { product_code := "P07", interest_rate := 2, prime_interest_rate := 2 },
   { product_code := "P08", interest_rate := 1, prime_interest_rate := 2 },
   { product_code := "P09", interest_rate := 2, prime_interest_rate := 1 },
   { product_code := "P10", interest_rate := 1, prime_interest_rate := 1 },
   { product_code := "P11", interest_rate := 2, prime_interest_rate := 1 },
   { product_code := "P12", interest_rate := 1, prime_interest_rate := 1 },
   { product_code := "P13", interest_rate := 2, prime_interest_rate := 1 },
   { product_code := "P14", interest_rate := 1, prime_interest_rate := 1 },
   { product_code := "P15", interest_rate := 3, prime_interest_rate := 1 }]

/-- Witness for C4 at the 15-product catalog, both hypotheses discharged by
computation. -/
theorem claim_C4_witness :
    (ConditionMatcherTool.run witConditions witCatalog "t0").matched_products.length ≤ 30 ∧
      min 15 witCatalog.length
        ≤ (ConditionMatcherTool.run witConditions witCatalog "t0").matched_products.length :=
  ⟨(claim_C4_matched_size_bounds witConditions witCatalog "t0").1,
   (claim_C4_matched_size_bounds witConditions witCatalog "t0").2 (by decide) (by decide)⟩

/-- Witness for the amended C3 at the 15-product catalog. -/
theorem claim_C3_amended_witness :
    (∀ q ∈ (ConditionMatcherTool.run witConditions witCatalog "t0").matched_products,
      ∀ q2 ∈ (ConditionMatcherTool.run witConditions witCatalog "t0").excluded_products,
        q.product_code ≠ q2.product_code) ∧
    (∀ p ∈ witCatalog,
      ConditionMatcherTool.check_interest_rate p witConditions.min_interest_rate = false →
      pyLookup (ConditionMatcherTool.run witConditions witCatalog "t0").exclusion_reasons
        p.product_code = some rateReasonMsg) :=
  ⟨(claim_C3_amended witConditions witCatalog "t0").1 (by decide) (by decide),
   (claim_C3_amended witConditions witCatalog "t0").2⟩

/-- Witness for the amended C6: at the 15-product catalog, the total is the
matched plus excluded lengths, the positive-total rate formula applies and
the total equals the catalog size (both no-backfill hypotheses discharged
by computation); at the empty catalog, the zero-total rate is 0. -/
theorem claim_C6_amended_witness :
    (ConditionMatcherTool.run witConditions witCatalog "t0").total_analyzed
      = (ConditionMatcherTool.run witConditions witCatalog "t0").matched_products.length
        + (ConditionMatcherTool.run witConditions witCatalog "t0").excluded_products.length ∧
    (ConditionMatcherTool.run witConditions witCatalog "t0").match_rate
      = ((ConditionMatcherTool.run witConditions witCatalog "t0").match_count : Rat)
        / ((ConditionMatcherTool.run witConditions witCatalog "t0").total_analyzed : Rat)
        * 100 ∧
    (ConditionMatcherTool.run witConditions witCatalog "t0").total_analyzed
      = witCatalog.length ∧
    (ConditionMatcherTool.run witConditions ([] : List Product) "t0").match_rate = 0 :=
  ⟨(claim_C6_amended witConditions witCatalog "t0").1,
   (claim_C6_amended witConditions witCatalog "t0").2.2.1 (by decide),
   (claim_C6_amended witConditions witCatalog "t0").2.2.2 (by decide) (by decide),
   (claim_C6_amended witConditions ([] : List Product) "t0").2.1 (by decide)⟩

/-- Witness conditions for C7: one required category tag and one required
special-condition tag. -/
def witTagConditions : EligibilityConditions :=
  { min_interest_rate := 1, categories := ["online"], special_conditions := ["bank_app"] }

/-- Witness product for C7: carries the required category and the required
special-condition flag set to true. -/
def witTagProduct : Product :=
  { product_code := "Q1", interest_rate := 1, prime_interest_rate := 2,
    categories := ["online"], special_conditions := [("bank_app", true)] }

/-- Witness for C7: the product is matched, is a stage-3 survivor, and
satisfies all required tags. -/
theorem claim_C7_witness :
    (witTagProduct ∈ stage3Survivors witTagConditions [witTagProduct] ∨
      witTagProduct.product_code ∉
        (stage3Survivors witTagConditions [witTagProduct]).map (fun q => q.product_code)) ∧
    (witTagProduct ∈ stage3Survivors witTagConditions [witTagProduct] →
      (∀ cat ∈ witTagConditions.categories,
        witTagProduct.categories.contains cat = true) ∧
        (∀ s ∈ witTagConditions.special_conditions,
          (witTagProduct.special_conditions.lookup s).getD false = true)) :=
  claim_C7_nonbackfilled_tags witTagConditions [witTagProduct] "t0" witTagProduct (by decide)

/-! ## Pipeline claims -/

theorem invoke_cons (s : AgentStep) (rest : List AgentStep) (v : PipeValue) :
    RunnableSequence.invoke (s :: rest) v
      = match s v with
        | .ok v2 => RunnableSequence.invoke rest v2
        | .error e => .error e := rfl

theorem invokeTraced_cons (name : String) (s : AgentStep)
    (rest : List (String × AgentStep)) (v : PipeValue) :
    RunnableSequence.invokeTraced ((name, s) :: rest) v
      = match s v with
        | .ok v2 =>
          ((RunnableSequence.invokeTraced rest v2).1,
            name :: (RunnableSequence.invokeTraced rest v2).2)
        | .error e => (.error e, [name]) := rfl

theorem strategyExecute_typed (chain : PipeValue → Except PyErr StrategyScenarioResult)
    (v : PipeValue) :
    (∃ r, StrategyAgent.execute chain v = PipeValue.strategySuccess r) ∨
      (∃ r, StrategyAgent.execute chain v = PipeValue.strategyError r) := by
  unfold StrategyAgent.execute
  cases h : StrategyAgent.executeBody chain v with
  | ok r => exact Or.inl ⟨r, rfl⟩
  | error e => exact Or.inr ⟨_, rfl⟩

/-- C1: the failing input for the success-response mapping. On a clean
chain (conditions present, non-empty catalog, 15 products matched) the
source constructs `EligibilitySuccessResponse` with the keyword
`eligible_products` although the schema field is named `result_products`;
the pydantic construction raises `ValidationError` and `execute` returns
the phase error response instead of the success response. -/
theorem claim_C1_clean_chain_returns_error :
    EligibilityAgent.execute (.ok witCatalog) "t0" (.inputData (some witConditions))
      = .ok (.eligError (EligibilityErrorResponse.ofError
          "1 validation error for EligibilitySuccessResponse: result_products Field required"))
    ∧ (ConditionMatcherTool.run witConditions witCatalog "t0").match_count = 15 := by
  decide

/-- C10: with the conditions present and the catalog collaborator returning
zero products, `EligibilityAgent.execute` returns the phase error response
carrying the no-product-data message, for every filter tool (the filter is
never invoked: the result does not depend on `matcher`). -/
theorem claim_C10_empty_catalog_error
    (matcher : EligibilityConditions → List Product → String → EligibilityFilterResult)
    (c : EligibilityConditions) (now : String) :
    EligibilityAgent.executeGen matcher (some c) (.ok []) now
      = .eligError (EligibilityErrorResponse.ofError "분석할 상품 데이터가 없습니다.") := rfl

/-- Question-agent tool chain stub used in the short-circuit runs; never
reached, as the runs show. -/
def stubQChain : PipeValue → Except PyErr PipeValue :=
  fun _ => .error { msg := "stub question chain invoked" }

/-- Strategy-agent tool chain stub used in the short-circuit runs. -/
def stubSChain : PipeValue → Except PyErr StrategyScenarioResult :=
  fun _ => .error { msg := "stub strategy chain invoked" }

/-- C2 counterexample: with the first agent returning its error response
(empty catalog), the instrumented run shows that the second and third
agents ARE invoked (the trace holds all three names), and the pipeline
result is the strategy agent's own validation error response, not a
top-level response wrapping the first agent's message. -/
theorem claim_C2_counterexample :
    (Pipeline.runTraced (Pipeline.buildTraced (.ok []) "t0" stubQChain stubSChain)
        cxConditions).2
      = ["EligibilityAgent", "QuestionAgent", "StrategyAgent"]
    ∧ (Pipeline.runTraced (Pipeline.buildTraced (.ok []) "t0" stubQChain stubSChain)
        cxConditions).1
      = .strategyError (StrategyErrorResponse.ofError
          "StrategyAgent RunnableSequence 실행 오류: QuestionAgent 실행이 실패한 상태입니다.") := by
  decide

/-- C2 (amended): when the first agent returns its typed error response,
every subsequent agent's execute method is still invoked (the trace holds
all three names), but each detects the false success flag during input
validation and returns its own typed error response without running its
internal tool chain (the result is independent of both chains, which are
universally quantified); the run terminates with the strategy phase error
response whose message reports the question phase validation failure. -/
theorem claim_C2_amended (fetch : Except PyErr (List Product)) (now : String)
    (qchain : PipeValue → Except PyErr PipeValue)
    (schain : PipeValue → Except PyErr StrategyScenarioResult)
    (c : EligibilityConditions) (m : String)
    (h : EligibilityAgent.execute fetch now (.inputData (some c))
      = .ok (.eligError (EligibilityErrorResponse.ofError m))) :
    Pipeline.runTraced (Pipeline.buildTraced fetch now qchain schain) c
      = (.strategyError (StrategyErrorResponse.ofError
          "StrategyAgent RunnableSequence 실행 오류: QuestionAgent 실행이 실패한 상태입니다."),
         ["EligibilityAgent", "QuestionAgent", "StrategyAgent"]) := by
  unfold Pipeline.runTraced Pipeline.buildTraced
  rw [invokeTraced_cons, h]
  rfl

/-- Witness for the amended C2 at the empty-catalog run. -/
theorem claim_C2_amended_witness :
    Pipeline.runTraced (Pipeline.buildTraced (.ok []) "t0" stubQChain stubSChain)
        cxConditions
      = (.strategyError (StrategyErrorResponse.ofError
          "StrategyAgent RunnableSequence 실행 오류: QuestionAgent 실행이 실패한 상태입니다."),
         ["EligibilityAgent", "QuestionAgent", "StrategyAgent"]) :=
  claim_C2_amended (.ok []) "t0" stubQChain stubSChain cxConditions
    "분석할 상품 데이터가 없습니다." (by decide)

/-- C8: for every behavior of the first two pipeline components (returning
any value or raising any fault) and every behavior of the strategy tool
chain, `Pipeline.run` returns a typed terminal value, a strategy success or
strategy error response; the codomain of the embedded `Pipeline.run` is the
plain value type, so no raised fault escapes it (the top-level `except`
converts any raised fault into the typed error response). -/
theorem invoke_last_strategy (schain : PipeValue → Except PyErr StrategyScenarioResult)
    (steps : List AgentStep) (v : PipeValue) :
    (∃ r, RunnableSequence.invoke (steps ++ [StrategyAgent.step schain]) v
        = .ok (PipeValue.strategySuccess r)) ∨
    (∃ r, RunnableSequence.invoke (steps ++ [StrategyAgent.step schain]) v
        = .ok (PipeValue.strategyError r)) ∨
    (∃ e, RunnableSequence.invoke (steps ++ [StrategyAgent.step schain]) v = .error e) := by
  induction steps generalizing v with
  | nil =>
    rcases strategyExecute_typed schain v with ⟨r, hr⟩ | ⟨r, hr⟩
    · exact Or.inl ⟨r, by
        show Except.ok (StrategyAgent.execute schain v) = _
        rw [hr]⟩
    · exact Or.inr (Or.inl ⟨r, by
        show Except.ok (StrategyAgent.execute schain v) = _
        rw [hr]⟩)
  | cons s rest ih =>
    rw [List.cons_append, invoke_cons]
    cases hs : s v with
    | error e => exact Or.inr (Or.inr ⟨e, rfl⟩)
    | ok v2 => exact ih v2

/-- C8: for every behavior of the first two pipeline components (returning
any value or raising any fault) and every behavior of the strategy tool
chain, `Pipeline.run` returns a typed terminal value, a strategy success or
strategy error response; the codomain of the embedded `Pipeline.run` is the
plain value type, so no raised fault escapes it (the top-level `except`
converts any raised fault into the typed error response). -/
theorem claim_C8_pipeline_total (s1 s2 : AgentStep)
    (schain : PipeValue → Except PyErr StrategyScenarioResult)
    (c : EligibilityConditions) :
    (∃ r, Pipeline.run [s1, s2, StrategyAgent.step schain] c = PipeValue.strategySuccess r) ∨
      (∃ r, Pipeline.run [s1, s2, StrategyAgent.step schain] c
        = PipeValue.strategyError r) := by
  have hl : [s1, s2, StrategyAgent.step schain]
      = [s1, s2] ++ [StrategyAgent.step schain] := rfl
  rcases invoke_last_strategy schain [s1, s2] (.inputData (some c))
    with ⟨r, hr⟩ | ⟨r, hr⟩ | ⟨e, he⟩
  · exact Or.inl ⟨r, by unfold Pipeline.run; rw [hl, hr]⟩
  · exact Or.inr ⟨r, by unfold Pipeline.run; rw [hl, hr]⟩
  · exact Or.inr ⟨StrategyErrorResponse.ofError ("파이프라인 실행 실패: " ++ e.msg), by
      unfold Pipeline.run
      rw [hl, he]⟩

/-- C9 counterexample: the eligibility error response built from an error
message alone carries the non-empty default marker string in
`processing_step`, so not every non-error field defaults to empty, zero or
none. -/
theorem claim_C9_counterexample :
    (EligibilityErrorResponse.ofError "boom").processing_step = "eligibility_failed"
    ∧ "eligibility_failed" ≠ "" := by
  decide

/-- C9 (amended): every phase error response is constructible from the
error message alone; all other fields then hold the source defaults, which
are empty, zero or none except `processing_step` (the phase failure marker
string) and the false `success` flag. -/
theorem claim_C9_amended (e : String) :
    EligibilityErrorResponse.ofError e
      = { result_products := [],
          filter_summary := ⟨0, 0, 0, 0, none⟩,
          user_conditions := none, processing_step := "eligibility_failed",
          next_agent := none, success := false, error := e }
    ∧ QuestionErrorResponse.ofError e
      = { eligible_products := [], user_responses := [], response_summary := [],
          user_conditions := none, processing_step := "question_failed",
          next_agent := none, success := false, error := e }
    ∧ StrategyErrorResponse.ofError e
      = { scenarios := [], user_conditions := none, user_responses := [],
          response_summary := [], interest_calculations := [],
          processing_step := "strategy_failed", next_agent := none, success := false,
          error := e } :=
  ⟨rfl, rfl, rfl⟩
